import Mathlib

/-!
# Verification of the genmsg HTTP relay (`src/main.py`)

Shallow embedding of the FastAPI relay in `src/main.py`: shared-secret
verification, per-client fixed-window rate limiting, message assembly from
conversation history plus prompt, normalization of the heterogeneous upstream
`content` shape, and post-processing of the generated text.

Conventions of the embedding:
* Python `Optional[T]` becomes `Option T`; Python truthiness of an optional
  string (`if s:`) is `truthyStr`.
* The upstream completion client is a parameter `upstream : List Message →
  UpstreamOutcome`; the handler returns, besides its HTTP-level result, the
  message list it sent upstream (`none` when no upstream call was made).
* Time is a `Nat` (seconds); rate-limiter windows are 60 seconds.
* Definitions whose code lives in external dependencies (slowapi's limiter,
  pydantic's body validation, the truncation configuration variant) are
  modelled from the spec and marked as such in their doc comments.
-/

/-- A chat message turn, the dict `{"role": ..., "content": ...}` built in
`generate_text` (main.py lines 55-59). -/
structure Message where
  role : String
  content : String
deriving Repr, DecidableEq

/-- View of a Python object appearing as an item of a list-shaped upstream
`content` (main.py lines 87-105 probe it with `hasattr` and `__dict__`):
`textAttr` is `item.text` when `hasattr(item, 'text')`, `contentAttr` is
`item.content` when `hasattr(item, 'content')`, `dict` is `item.__dict__`
when present, and `strRepr` is `str(item)`. Attribute and dict values are
modelled as strings since the source applies `str(...)` to them. -/
structure PyObj where
  textAttr : Option String
  contentAttr : Option String
  dict : Option (List (String × String))
  strRepr : String
deriving Repr, DecidableEq

/-- An item of a list-shaped upstream `content`: either a plain Python string
(main.py line 89) or an object probed for text-like fields. -/
inductive ContentItem where
  | str (s : String)
  | obj (o : PyObj)
deriving Repr, DecidableEq

/-- The shapes of `response.choices[0].message.content` distinguished by
`generate_text` (main.py lines 80-108): `None`, a string, a list of items,
or anything else (converted with `str(...)`, whose result is `strRepr`). -/
inductive Content where
  | null
  | str (s : String)
  | list (items : List ContentItem)
  | other (strRepr : String)
deriving Repr, DecidableEq

/-- Per-item text extraction, main.py lines 87-105: a plain string is used
as-is; otherwise try `item.text`, then `item.content`, then the `__dict__`
lookups for `'text'` and `'content'`, and finally `str(item)`. -/
def extractPart : ContentItem → String
  | .str s => s
  | .obj o =>
    match o.textAttr with
    | some t => t
    | none =>
      match o.contentAttr with
      | some c => c
      | none =>
        match o.dict with
        | some d =>
          match d.lookup "text" with
          | some t => t
          | none =>
            match d.lookup "content" with
            | some c => c
            | none => o.strRepr
        | none => o.strRepr

/-- Normalization of upstream `content` into a string, main.py lines 80-108:
`None` becomes `""`, a string is used as-is, a list is mapped through
`extractPart` and joined with `" ".join(parts)`, anything else is
stringified. -/
def normalizeContent : Content → String
  | .null => ""
  | .str s => s
  | .list items => String.intercalate " " (items.map extractPart)
  | .other r => r

/-- Python `str.strip()` with no argument: drop leading and trailing
whitespace (main.py line 111, also used by `get_real_client_ip`). -/
def pyStrip (s : String) : String :=
  String.mk (((s.data.dropWhile Char.isWhitespace).reverse.dropWhile Char.isWhitespace).reverse)

/-- The request body schema `GenerationRequest` (main.py lines 41-44):
`prompt: str`, `conversation_history: list[str] | None = None`,
`secret: str`. -/
structure GenerationRequest where
  prompt : String
  conversation_history : Option (List String)
  secret : String
deriving Repr, DecidableEq

/-- Python truthiness of an optional string: `None` and `""` are falsy. -/
def truthyStr : Option String → Bool
  | none => false
  | some s => !s.isEmpty

/-- Message assembly, main.py lines 55-59: `if body.conversation_history:`
(truthy, i.e. present and non-empty) loop the history into `"user"` turns,
then append the prompt as a final `"user"` turn. -/
def buildMessages (body : GenerationRequest) : List Message :=
  let messages : List Message :=
    match body.conversation_history with
    | some h => if h.isEmpty then [] else h.map fun msg => { role := "user", content := msg }
    | none => []
  messages ++ [{ role := "user", content := body.prompt }]

/-- Outcome of the awaited upstream call together with response-field access
(main.py lines 61-68): either a `content` value of some shape, or an
exception (network failure, upstream error, missing choices, ...) whose
`str(e)` is `msg`. -/
inductive UpstreamOutcome where
  | ok (content : Content)
  | error (msg : String)

/-- HTTP-level result of a route handler: a success body (for `/generate`,
the `generated_text` value) or an `HTTPException`-style status with a
detail string. -/
inductive HandlerResult where
  | ok (text : String)
  | httpError (status : Nat) (detail : String)
deriving Repr, DecidableEq

/-- HTTP status of a handler result (FastAPI returns 200 for a plain dict). -/
def statusOf : HandlerResult → Nat
  | .ok _ => 200
  | .httpError s _ => s

/-- The body of the `generate_text` handler (main.py lines 49-117), after the
rate-limit decorator has admitted the request: verify the secret (401 on
mismatch, before any upstream work), build the messages, call upstream, and
normalize/post-process; any failure in the `try` block becomes a 500 whose
detail is `str(e)`. The second component records the message list sent
upstream (`none` when no upstream call happened). -/
def generate_text (apiSecret : String) (body : GenerationRequest)
    (upstream : List Message → UpstreamOutcome) :
    HandlerResult × Option (List Message) :=
  if body.secret ≠ apiSecret then
    (.httpError 401 "Invalid authentication secret", none)
  else
    let messages := buildMessages body
    match upstream messages with
    | .error e => (.httpError 500 e, some messages)
    | .ok content =>
      let text_output := pyStrip (normalizeContent content)
      if text_output = "" then
        (.ok "No content generated", some messages)
      else
        (.ok text_output, some messages)

/-- Per-identity fixed-window counter of the rate limiter. -/
structure RateEntry where
  count : Nat
  windowStart : Nat
deriving Repr, DecidableEq

/-- Modelled from the spec: the fixed-window rate-limit check of §4.2 (the
algorithm itself lives in the external `slowapi` dependency, which
`main.py` only configures). If the current time has passed
`windowStart + window`, reset the counter and the window start; increment
the counter (the denied attempt is counted too); allow iff the incremented
counter does not exceed the limit. Returns the decision and the updated
entry. -/
def rateCheck (limit window now : Nat) (entry : Option RateEntry) : Bool × RateEntry :=
  let e :=
    match entry with
    | none => { count := 0, windowStart := now : RateEntry }
    | some e => if e.windowStart + window ≤ now then { count := 0, windowStart := now } else e
  let e' : RateEntry := { count := e.count + 1, windowStart := e.windowStart }
  (decide (e'.count ≤ limit), e')

/-- Server configuration from the environment (main.py lines 16-17):
`API_SECRET` defaults to `"default_secret_change_me"`, `RATE_LIMIT`
defaults to 10 requests per minute and is operator-configurable. -/
structure Config where
  apiSecret : String := "default_secret_change_me"
  rateLimit : Nat := 10

/-- Process-wide rate-limiter state: one counter map per limited route
(`/generate` and `/`), keyed by client identity. The two routes are
separate maps because `slowapi` keys its storage per route. -/
structure RateState where
  gen : String → Option RateEntry
  root : String → Option RateEntry

/-- The full `/generate` pipeline for one request (main.py lines 47-117):
the `@limiter.limit(RATE_LIMIT)` decorator runs the fixed-window check
first (429 on deny, handler body never entered), then the handler body
`generate_text` runs. Returns the HTTP-level result, the recorded upstream
call, and the updated rate-limiter state. -/
def handleGenerate (cfg : Config) (now : Nat) (clientIp : String) (st : RateState)
    (body : GenerationRequest) (upstream : List Message → UpstreamOutcome) :
    HandlerResult × Option (List Message) × RateState :=
  let rc := rateCheck cfg.rateLimit 60 now (st.gen clientIp)
  let st' : RateState := { st with gen := fun k => if k = clientIp then some rc.2 else st.gen k }
  if rc.1 then
    let r := generate_text cfg.apiSecret body upstream
    (r.1, r.2, st')
  else
    (.httpError 429 "Rate limit exceeded", none, st')

/-- The `/` liveness route (main.py lines 120-123): fixed 60/minute limit,
otherwise a constant message. -/
def handleRoot (now : Nat) (clientIp : String) (st : RateState) :
    HandlerResult × RateState :=
  let rc := rateCheck 60 60 now (st.root clientIp)
  let st' : RateState := { st with root := fun k => if k = clientIp then some rc.2 else st.root k }
  if rc.1 then
    (.ok "GPT-5 Nano FastAPI is running!", st')
  else
    (.httpError 429 "Rate limit exceeded", st')

/-- Header and transport data of a request, as read by
`get_real_client_ip` (main.py lines 20-31): the `X-Forwarded-For` and
`X-Real-IP` headers (absent = `none`) and the transport-level peer address
returned by `get_remote_address`. -/
structure RequestMeta where
  xForwardedFor : Option String
  xRealIP : Option String
  remoteAddress : String
deriving Repr, DecidableEq

/-- Python `s.split(",")`: split at every comma, keeping empty pieces; the
result is never the empty list. -/
def splitCommaAux : List Char → List Char → List String
  | [], acc => [String.mk acc.reverse]
  | c :: cs, acc =>
    if c = ',' then String.mk acc.reverse :: splitCommaAux cs []
    else splitCommaAux cs (c :: acc)

/-- Python `s.split(",")` on a string. -/
def splitComma (s : String) : List String := splitCommaAux s.data []

/-- Client-identity resolution, main.py lines 20-31: if `X-Forwarded-For` is
truthy (present and non-empty) return its first comma-separated entry,
stripped; else if `X-Real-IP` is truthy return it; else the transport peer
address. -/
def get_real_client_ip (r : RequestMeta) : String :=
  if truthyStr r.xForwardedFor then
    pyStrip ((splitComma (r.xForwardedFor.getD "")).headD "")
  else if truthyStr r.xRealIP then
    r.xRealIP.getD ""
  else
    r.remoteAddress

/-- A JSON value of a request body field (the subset relevant to the
`GenerationRequest` schema). -/
inductive Json where
  | null
  | str (s : String)
  | num (n : Int)
  | boolean (b : Bool)
  | arr (items : List Json)

/-- A raw `/generate` request body before validation: each schema field is
present with some JSON value or absent. -/
structure RawBody where
  prompt : Option Json
  conversation_history : Option Json
  secret : Option Json

/-- A JSON value read as a string, failing on any other shape. -/
def asStr : Json → Option String
  | .str s => some s
  | _ => none

/-- A JSON array's items read as strings, failing if any item is not a
string. -/
def asStrList : List Json → Option (List String)
  | [] => some []
  | j :: rest =>
    match asStr j, asStrList rest with
    | some s, some l => some (s :: l)
    | _, _ => none

/-- Modelled from the spec: request-body schema validation of §7 (performed
by the external `pydantic`/FastAPI boundary layer, which `main.py` only
declares through the `GenerationRequest` class): a missing required field
or a wrong field type fails with 422 before the handler runs. `prompt` and
`secret` must be present strings; `conversation_history` may be absent or
`null` (both meaning `None`) or a list of strings. -/
def validateBody (b : RawBody) : Except String GenerationRequest :=
  match b.prompt with
  | none => .error "field required: prompt"
  | some pj =>
    match asStr pj with
    | none => .error "prompt: str type expected"
    | some p =>
      match b.secret with
      | none => .error "field required: secret"
      | some sj =>
        match asStr sj with
        | none => .error "secret: str type expected"
        | some sec =>
          match b.conversation_history with
          | none => .ok { prompt := p, conversation_history := none, secret := sec }
          | some .null => .ok { prompt := p, conversation_history := none, secret := sec }
          | some (.arr items) =>
            match asStrList items with
            | none => .error "conversation_history: list of str expected"
            | some h => .ok { prompt := p, conversation_history := some h, secret := sec }
          | some _ => .error "conversation_history: list type expected"

/-- Modelled from the spec: Python `str.split()` with no argument, as used
by the truncation configuration variant of §4.3 (absent from `src/`,
whose line 110 keeps the full text): split on runs of whitespace,
discarding empty pieces. Accumulator-based walk over the characters. -/
def pySplitAux : List Char → List Char → List (List Char)
  | [], acc => if acc.isEmpty then [] else [acc.reverse]
  | c :: cs, acc =>
    if c.isWhitespace then
      if acc.isEmpty then pySplitAux cs []
      else acc.reverse :: pySplitAux cs []
    else pySplitAux cs (c :: acc)

/-- Modelled from the spec: the whitespace-separated words of a string,
Python `text.split()`. -/
def pyWords (s : String) : List String := (pySplitAux s.data []).map String.mk

/-- Modelled from the spec: the truncation variant's post-processing of
§4.3, Python `" ".join(text.split()[:10])`: collapse whitespace runs,
keep the first 10 words, rejoin with single spaces. -/
def truncateWords (s : String) : String :=
  String.intercalate " " ((pyWords s).take 10)

/-- The spec's description (§4.3, §6) of per-item extraction: try a field
literally named `text`, then one named `content`, then fall back to the
generic string conversion of the item (for a plain string that conversion
is the string itself). -/
def specExtractPart : ContentItem → String
  | .str s => s
  | .obj o =>
    match o.textAttr with
    | some t => t
    | none =>
      match o.contentAttr with
      | some c => c
      | none => o.strRepr

/-- States of a `ContentItem` that a Python value can actually be in: an
instance-dict key is always visible as an attribute, so a `'text'` or
`'content'` key in `__dict__` implies the corresponding attribute is
present. -/
def PyReachable : ContentItem → Prop
  | .str _ => True
  | .obj o =>
    match o.dict with
    | none => True
    | some d =>
      ((d.lookup "text").isSome → o.textAttr.isSome) ∧
      ((d.lookup "content").isSome → o.contentAttr.isSome)

theorem extractPart_eq_spec (it : ContentItem) (h : PyReachable it) :
    extractPart it = specExtractPart it := by
  cases it with
  | str s => rfl
  | obj o =>
    cases hT : o.textAttr with
    | some t => simp [extractPart, specExtractPart, hT]
    | none =>
      cases hC : o.contentAttr with
      | some c => simp [extractPart, specExtractPart, hT, hC]
      | none =>
        cases hD : o.dict with
        | none => simp [extractPart, specExtractPart, hT, hC, hD]
        | some d =>
          have hr : ((d.lookup "text").isSome → o.textAttr.isSome) ∧
              ((d.lookup "content").isSome → o.contentAttr.isSome) := by
            simpa [PyReachable, hD] using h
          have h1 : d.lookup "text" = none := by
            cases hx : d.lookup "text" with
            | none => rfl
            | some v => exact absurd (hr.1 (by simp [hx])) (by simp [hT])
          have h2 : d.lookup "content" = none := by
            cases hx : d.lookup "content" with
            | none => rfl
            | some v => exact absurd (hr.2 (by simp [hx])) (by simp [hC])
          simp [extractPart, specExtractPart, hT, hC, hD, h1, h2]

/-- C1: normalization of the three upstream content shapes — absent content
normalizes to the empty string, a plain string is used as-is, and a list
of items is mapped through the spec's extraction order (a field named
`text`, then one named `content`, then the generic string conversion) and
joined with single spaces in sequence order. The hypothesis restricts the
item model to states a Python object can actually occupy. -/
theorem c1_normalization (s : String) (items : List ContentItem)
    (h : ∀ it ∈ items, PyReachable it) :
    normalizeContent .null = "" ∧
    normalizeContent (.str s) = s ∧
    normalizeContent (.list items) = String.intercalate " " (items.map specExtractPart) := by
  refine ⟨rfl, rfl, ?_⟩
  simp only [normalizeContent]
  congr 1
  exact List.map_congr_left fun it hit => extractPart_eq_spec it (h it hit)

/-- C1 witness: the three shapes at concrete inputs, with items exercising
the plain-string case, the `text` attribute, the `content` attribute and
the generic fallback. -/
theorem c1_normalization_witness :
    normalizeContent .null = "" ∧
    normalizeContent (.str "Hello world") = "Hello world" ∧
    normalizeContent (.list [ContentItem.str "Hi",
        ContentItem.obj ⟨some "there", none, some [("text", "there")], "rep1"⟩,
        ContentItem.obj ⟨none, some "dear", none, "rep2"⟩,
        ContentItem.obj ⟨none, none, none, "friend"⟩]) =
      String.intercalate " " ([ContentItem.str "Hi",
        ContentItem.obj ⟨some "there", none, some [("text", "there")], "rep1"⟩,
        ContentItem.obj ⟨none, some "dear", none, "rep2"⟩,
        ContentItem.obj ⟨none, none, none, "friend"⟩].map specExtractPart) :=
  c1_normalization "Hello world" _ (by simp [PyReachable])

/-- C2 counterexample: a request whose secret differs from the configured
secret but whose client identity is over quota is answered 429, not 401 —
the rate-limit decorator runs before the secret check in the handler
body. -/
theorem c2_counterexample :
    (let cfg : Config := { apiSecret := "s3cret", rateLimit := 10 }
     let r := handleGenerate cfg 30 "1.2.3.4"
       { gen := fun _ => some { count := 10, windowStart := 0 }, root := fun _ => none }
       { prompt := "hi", conversation_history := none, secret := "wrong" }
       (fun _ => .ok (.str "ok"))
     ("wrong" : String) ≠ cfg.apiSecret ∧ statusOf r.1 = 429 ∧ statusOf r.1 ≠ 401) := by
  decide

/-- C2 (amended): every within-quota request whose supplied secret differs
from the configured secret is answered 401 with a detail indicating an
authentication problem, and no upstream call is made. -/
theorem c2_auth_reject (cfg : Config) (now : Nat) (ip : String) (st : RateState)
    (body : GenerationRequest) (upstream : List Message → UpstreamOutcome)
    (hallow : (rateCheck cfg.rateLimit 60 now (st.gen ip)).1 = true)
    (hsecret : body.secret ≠ cfg.apiSecret) :
    (handleGenerate cfg now ip st body upstream).1 =
      .httpError 401 "Invalid authentication secret" ∧
    (handleGenerate cfg now ip st body upstream).2.1 = none := by
  simp [handleGenerate, hallow, generate_text, hsecret]

/-- C2 witness: a concrete fresh-window request with a wrong secret. -/
theorem c2_auth_reject_witness :
    (handleGenerate { apiSecret := "s3cret", rateLimit := 10 } 0 "ip"
        { gen := fun _ => none, root := fun _ => none }
        { prompt := "hi", conversation_history := none, secret := "wrong" }
        (fun _ => .ok (.str "ok"))).1 =
      .httpError 401 "Invalid authentication secret" ∧
    (handleGenerate { apiSecret := "s3cret", rateLimit := 10 } 0 "ip"
        { gen := fun _ => none, root := fun _ => none }
        { prompt := "hi", conversation_history := none, secret := "wrong" }
        (fun _ => .ok (.str "ok"))).2.1 = none :=
  c2_auth_reject _ _ _ _ _ _ (by decide) (by decide)

/-- C3: a request from a client identity whose per-route counter has already
reached the policy limit within the current window is answered 429 with no
upstream call, on both routes independently: the generation route's limit
is the configured one (default 10/minute), the liveness route's is
60/minute, and handling a generation request never touches the liveness
route's counters (and conversely). -/
theorem c3_rate_limit_denial (cfg : Config) (now : Nat) (ip : String) (st : RateState)
    (body : GenerationRequest) (upstream : List Message → UpstreamOutcome) (e : RateEntry)
    (hg : st.gen ip = some e) (hwin : now < e.windowStart + 60)
    (hcount : cfg.rateLimit ≤ e.count) :
    statusOf (handleGenerate cfg now ip st body upstream).1 = 429 ∧
    (handleGenerate cfg now ip st body upstream).2.1 = none ∧
    ((handleGenerate cfg now ip st body upstream).2.2).root = st.root ∧
    ({} : Config).rateLimit = 10 ∧
    (∀ e', st.root ip = some e' → now < e'.windowStart + 60 → 60 ≤ e'.count →
      statusOf (handleRoot now ip st).1 = 429 ∧ ((handleRoot now ip st).2).gen = st.gen) := by
  have hexp : ¬ (e.windowStart + 60 ≤ now) := by omega
  have hden : ¬ (e.count + 1 ≤ cfg.rateLimit) := by omega
  refine ⟨?_, ?_, ?_, rfl, ?_⟩
  · simp [handleGenerate, rateCheck, hg, hexp, hden, statusOf]
  · simp [handleGenerate, rateCheck, hg, hexp, hden]
  · simp [handleGenerate, rateCheck, hg, hexp, hden]
  · intro e' hr hwin' hcount'
    have hexp' : ¬ (e'.windowStart + 60 ≤ now) := by omega
    have hden' : ¬ (e'.count + 1 ≤ 60) := by omega
    exact ⟨by simp [handleRoot, rateCheck, hr, hexp', hden', statusOf],
      by simp [handleRoot, rateCheck, hr, hexp', hden']⟩

/-- C3 witness: a client at the default limit (10) on the generation route
and at 60 on the liveness route inside a live window is denied on both. -/
theorem c3_rate_limit_denial_witness :
    statusOf (handleGenerate {} 30 "ip"
        { gen := fun _ => some { count := 10, windowStart := 0 },
          root := fun _ => some { count := 60, windowStart := 0 } }
        { prompt := "hi", conversation_history := none, secret := "default_secret_change_me" }
        (fun _ => .ok (.str "ok"))).1 = 429 ∧
    (handleGenerate {} 30 "ip"
        { gen := fun _ => some { count := 10, windowStart := 0 },
          root := fun _ => some { count := 60, windowStart := 0 } }
        { prompt := "hi", conversation_history := none, secret := "default_secret_change_me" }
        (fun _ => .ok (.str "ok"))).2.1 = none ∧
    ((handleGenerate {} 30 "ip"
        { gen := fun _ => some { count := 10, windowStart := 0 },
          root := fun _ => some { count := 60, windowStart := 0 } }
        { prompt := "hi", conversation_history := none, secret := "default_secret_change_me" }
        (fun _ => .ok (.str "ok"))).2.2).root =
      (fun _ => some { count := 60, windowStart := 0 : RateEntry }) ∧
    ({} : Config).rateLimit = 10 ∧
    statusOf (handleRoot 30 "ip"
        { gen := fun _ => some { count := 10, windowStart := 0 },
          root := fun _ => some { count := 60, windowStart := 0 } }).1 = 429 := by
  have h := c3_rate_limit_denial {} 30 "ip"
    { gen := fun _ => some { count := 10, windowStart := 0 },
      root := fun _ => some { count := 60, windowStart := 0 } }
    { prompt := "hi", conversation_history := none, secret := "default_secret_change_me" }
    (fun _ => .ok (.str "ok")) { count := 10, windowStart := 0 }
    rfl (by decide) (by decide)
  exact ⟨h.1, h.2.1, h.2.2.1, h.2.2.2.1,
    (h.2.2.2.2 { count := 60, windowStart := 0 } rfl (by decide) (by decide)).1⟩

theorem buildMessages_of_some (body : GenerationRequest) (h : List String)
    (hh : body.conversation_history = some h) :
    buildMessages body =
      h.map (fun m => { role := "user", content := m }) ++
        [{ role := "user", content := body.prompt }] := by
  cases h with
  | nil => simp [buildMessages, hh]
  | cons a t => simp [buildMessages, hh]

/-- C4: message assembly is order-preserving — an admitted, authorized
request with history `[h1, ..., hn]` and prompt `p` makes the upstream
call receive exactly the n+1 turns `h1, ..., hn, p` in order, each with
role `"user"`. -/
theorem c4_order_preserving (cfg : Config) (now : Nat) (ip : String) (st : RateState)
    (body : GenerationRequest) (upstream : List Message → UpstreamOutcome) (h : List String)
    (hh : body.conversation_history = some h)
    (hallow : (rateCheck cfg.rateLimit 60 now (st.gen ip)).1 = true)
    (hsecret : body.secret = cfg.apiSecret) :
    (handleGenerate cfg now ip st body upstream).2.1 =
      some (h.map (fun m => { role := "user", content := m }) ++
        [{ role := "user", content := body.prompt }]) ∧
    ∀ ms, (handleGenerate cfg now ip st body upstream).2.1 = some ms →
      ms.length = h.length + 1 := by
  have hb := buildMessages_of_some body h hh
  have hcall : (handleGenerate cfg now ip st body upstream).2.1 = some (buildMessages body) := by
    cases hu : upstream (buildMessages body) with
    | ok c =>
      by_cases ht : pyStrip (normalizeContent c) = "" <;>
        simp [handleGenerate, hallow, generate_text, hsecret, hu, ht]
    | error m => simp [handleGenerate, hallow, generate_text, hsecret, hu]
  refine ⟨by rw [hcall, hb], ?_⟩
  intro ms hms
  rw [hcall, hb] at hms
  cases hms
  simp

/-- C4 witness: history `["A", "B"]` and prompt `"C"` reach upstream as the
three `"user"` turns A, B, C in order. -/
theorem c4_order_preserving_witness :
    (handleGenerate { apiSecret := "s", rateLimit := 10 } 0 "ip"
        { gen := fun _ => none, root := fun _ => none }
        { prompt := "C", conversation_history := some ["A", "B"], secret := "s" }
        (fun _ => .ok (.str "ok"))).2.1 =
      some [{ role := "user", content := "A" }, { role := "user", content := "B" },
        { role := "user", content := "C" }] := by
  have h := c4_order_preserving { apiSecret := "s", rateLimit := 10 } 0 "ip"
    { gen := fun _ => none, root := fun _ => none }
    { prompt := "C", conversation_history := some ["A", "B"], secret := "s" }
    (fun _ => .ok (.str "ok")) ["A", "B"] rfl (by decide) rfl
  simpa using h.1

/-- C5: an admitted, authorized request whose upstream call succeeds is
answered with exactly the success shape carrying the normalized text
trimmed of surrounding whitespace, or the fixed placeholder
`"No content generated"` when that trimmed text is empty; the returned
string is never empty. -/
theorem c5_success_shape (cfg : Config) (now : Nat) (ip : String) (st : RateState)
    (body : GenerationRequest) (upstream : List Message → UpstreamOutcome) (c : Content)
    (hallow : (rateCheck cfg.rateLimit 60 now (st.gen ip)).1 = true)
    (hsecret : body.secret = cfg.apiSecret)
    (hup : upstream (buildMessages body) = .ok c) :
    (handleGenerate cfg now ip st body upstream).1 =
      (if pyStrip (normalizeContent c) = "" then HandlerResult.ok "No content generated"
       else HandlerResult.ok (pyStrip (normalizeContent c))) ∧
    ∀ s, (handleGenerate cfg now ip st body upstream).1 = .ok s → s ≠ "" := by
  have hres : (handleGenerate cfg now ip st body upstream).1 =
      (if pyStrip (normalizeContent c) = "" then HandlerResult.ok "No content generated"
       else HandlerResult.ok (pyStrip (normalizeContent c))) := by
    by_cases ht : pyStrip (normalizeContent c) = "" <;>
      simp [handleGenerate, hallow, generate_text, hsecret, hup, ht]
  refine ⟨hres, ?_⟩
  intro s hs
  rw [hres] at hs
  by_cases ht : pyStrip (normalizeContent c) = ""
  · rw [if_pos ht] at hs
    cases hs
    decide
  · rw [if_neg ht] at hs
    cases hs
    exact ht

/-- C5 witness: upstream content `"  This is a test response from OpenAI  "`
is returned trimmed, and whitespace-only upstream content yields the
placeholder; neither result is empty. -/
theorem c5_success_shape_witness :
    (handleGenerate { apiSecret := "s", rateLimit := 10 } 0 "ip"
        { gen := fun _ => none, root := fun _ => none }
        { prompt := "Hello", conversation_history := some [], secret := "s" }
        (fun _ => .ok (.str "  This is a test response from OpenAI  "))).1 =
      .ok "This is a test response from OpenAI" := by
  have h := c5_success_shape { apiSecret := "s", rateLimit := 10 } 0 "ip"
    { gen := fun _ => none, root := fun _ => none }
    { prompt := "Hello", conversation_history := some [], secret := "s" }
    (fun _ => .ok (.str "  This is a test response from OpenAI  "))
    (.str "  This is a test response from OpenAI  ") (by decide) rfl rfl
  rw [h.1]
  decide

/-- C7 counterexample: with a forwarded-for header that is present but
empty, the code falls through to the real-IP header instead of returning
the (empty) first comma-separated entry of the forwarded-for value, as
the claim's priority order would require for any present header. -/
theorem c7_counterexample :
    (let r : RequestMeta :=
      { xForwardedFor := some "", xRealIP := some "9.9.9.9", remoteAddress := "peer" }
     r.xForwardedFor = some "" ∧
     get_real_client_ip r = "9.9.9.9" ∧
     pyStrip ((splitComma "").headD "") = "" ∧
     get_real_client_ip r ≠ pyStrip ((splitComma "").headD "")) := by
  decide

/-- C7 (amended): client identity resolution tries, in order, a present and
non-empty forwarded-for header (first comma-separated entry, whitespace
trimmed), then a present and non-empty real-IP header, then the
transport-level peer address. -/
theorem c7_client_ip_order (r : RequestMeta) :
    (∀ ff, r.xForwardedFor = some ff → ff ≠ "" →
      get_real_client_ip r = pyStrip ((splitComma ff).headD "")) ∧
    ((r.xForwardedFor = none ∨ r.xForwardedFor = some "") →
      (∀ rip, r.xRealIP = some rip → rip ≠ "" → get_real_client_ip r = rip) ∧
      ((r.xRealIP = none ∨ r.xRealIP = some "") → get_real_client_ip r = r.remoteAddress)) := by
  have e1 : truthyStr (none : Option String) = false := rfl
  have e2 : truthyStr (some "") = false := rfl
  constructor
  · intro ff hff hne
    have hie : ff.isEmpty = false := by
      cases hb : ff.isEmpty
      · rfl
      · exact absurd ((String.isEmpty_iff ff).mp hb) hne
    have ht : truthyStr (some ff) = true := by simp [truthyStr, hie]
    simp [get_real_client_ip, hff, ht]
  · intro hforw
    constructor
    · intro rip hrip hne
      have hie : rip.isEmpty = false := by
        cases hb : rip.isEmpty
        · rfl
        · exact absurd ((String.isEmpty_iff rip).mp hb) hne
      have ht : truthyStr (some rip) = true := by simp [truthyStr, hie]
      rcases hforw with h | h
      · simp [get_real_client_ip, h, e1, hrip, ht]
      · simp [get_real_client_ip, h, e2, hrip, ht]
    · intro hreal
      rcases hforw with h | h <;> rcases hreal with h2 | h2 <;>
        simp [get_real_client_ip, h, h2, e1, e2]

/-- C7 witness: the three resolution levels at concrete headers. -/
theorem c7_client_ip_order_witness :
    get_real_client_ip
        { xForwardedFor := some " 1.2.3.4 ,5.6.7.8", xRealIP := some "9.9.9.9",
          remoteAddress := "peer" } = "1.2.3.4" ∧
    get_real_client_ip
        { xForwardedFor := none, xRealIP := some "9.9.9.9", remoteAddress := "peer" } =
      "9.9.9.9" ∧
    get_real_client_ip
        { xForwardedFor := some "", xRealIP := none, remoteAddress := "peer" } = "peer" := by
  refine ⟨?_, ?_, ?_⟩
  · have h := (c7_client_ip_order
      { xForwardedFor := some " 1.2.3.4 ,5.6.7.8", xRealIP := some "9.9.9.9",
        remoteAddress := "peer" }).1 " 1.2.3.4 ,5.6.7.8" rfl (by decide)
    rw [h]; decide
  · exact ((c7_client_ip_order
      { xForwardedFor := none, xRealIP := some "9.9.9.9", remoteAddress := "peer" }).2
      (Or.inl rfl)).1 "9.9.9.9" rfl (by decide)
  · exact ((c7_client_ip_order
      { xForwardedFor := some "", xRealIP := none, remoteAddress := "peer" }).2
      (Or.inr rfl)).2 (Or.inl rfl)

/-- C8: any failure while calling the upstream service or reading its
response surfaces, for an admitted and authorized request, as status 500
whose detail is the failure's textual description, and no success result
is returned. -/
theorem c8_upstream_failure (cfg : Config) (now : Nat) (ip : String) (st : RateState)
    (body : GenerationRequest) (upstream : List Message → UpstreamOutcome) (m : String)
    (hallow : (rateCheck cfg.rateLimit 60 now (st.gen ip)).1 = true)
    (hsecret : body.secret = cfg.apiSecret)
    (hup : upstream (buildMessages body) = .error m) :
    (handleGenerate cfg now ip st body upstream).1 = .httpError 500 m ∧
    statusOf (handleGenerate cfg now ip st body upstream).1 = 500 ∧
    ∀ s, (handleGenerate cfg now ip st body upstream).1 ≠ .ok s := by
  have hres : (handleGenerate cfg now ip st body upstream).1 = .httpError 500 m := by
    simp [handleGenerate, hallow, generate_text, hsecret, hup]
  exact ⟨hres, by rw [hres]; rfl, fun s hs => by rw [hres] at hs; cases hs⟩

/-- C8 witness: a concrete upstream failure `"Connection error"` at a
fresh-window, authorized request. -/
theorem c8_upstream_failure_witness :
    (handleGenerate { apiSecret := "s", rateLimit := 10 } 0 "ip"
        { gen := fun _ => none, root := fun _ => none }
        { prompt := "Hello", conversation_history := none, secret := "s" }
        (fun _ => .error "Connection error")).1 = .httpError 500 "Connection error" :=
  (c8_upstream_failure { apiSecret := "s", rateLimit := 10 } 0 "ip"
    { gen := fun _ => none, root := fun _ => none }
    { prompt := "Hello", conversation_history := none, secret := "s" }
    (fun _ => .error "Connection error") "Connection error" (by decide) rfl rfl).1

/-- C9 counterexample: a body whose `prompt` is the empty string passes
schema validation and reaches the core — the schema constrains `prompt`
to be a present string but not to be non-empty, so no 422 occurs. -/
theorem c9_counterexample :
    validateBody
        { prompt := some (Json.str ""), conversation_history := some (Json.arr []),
          secret := some (Json.str "sec") } =
      Except.ok { prompt := "", conversation_history := some [], secret := "sec" } :=
  rfl

/-- C9 (amended): a body missing `prompt` is rejected by schema validation
before reaching the core, and every accepted body had `prompt` present as
a string — but the empty string is not excluded. -/
theorem c9_validation (b : RawBody) :
    (b.prompt = none → ∃ e, validateBody b = .error e) ∧
    (∀ req, validateBody b = .ok req → ∃ s, b.prompt = some (Json.str s) ∧ req.prompt = s) := by
  constructor
  · intro h
    exact ⟨"field required: prompt", by simp [validateBody, h]⟩
  · intro req hreq
    rcases hp : b.prompt with _ | pj
    · simp [validateBody, hp] at hreq
    · rcases hs : asStr pj with _ | p
      · simp [validateBody, hp, hs] at hreq
      · refine ⟨p, ?_, ?_⟩
        · cases pj <;> simp [asStr] at hs
          simp [hs]
        · rcases hsec : b.secret with _ | sj
          · simp [validateBody, hp, hs, hsec] at hreq
          · rcases hss : asStr sj with _ | sec
            · simp [validateBody, hp, hs, hsec, hss] at hreq
            · rcases hch : b.conversation_history with _ | cj
              · simp [validateBody, hp, hs, hsec, hss, hch] at hreq
                rw [← hreq]
              · cases cj with
                | null =>
                  simp [validateBody, hp, hs, hsec, hss, hch] at hreq
                  rw [← hreq]
                | arr items =>
                  rcases hl : asStrList items with _ | l <;>
                    simp [validateBody, hp, hs, hsec, hss, hch, hl] at hreq
                  rw [← hreq]
                | str s' => simp [validateBody, hp, hs, hsec, hss, hch] at hreq
                | num n => simp [validateBody, hp, hs, hsec, hss, hch] at hreq
                | boolean v => simp [validateBody, hp, hs, hsec, hss, hch] at hreq

/-- C9 witness: a body missing `prompt` is rejected; the accepted body of
the counterexample is recovered from the amended direction. -/
theorem c9_validation_witness :
    (∃ e, validateBody
        { prompt := none, conversation_history := none, secret := some (Json.str "sec") } =
      .error e) ∧
    (∃ s, (some (Json.str "hi") : Option Json) = some (Json.str s) ∧ ("hi" : String) = s) := by
  constructor
  · exact (c9_validation
      { prompt := none, conversation_history := none, secret := some (Json.str "sec") }).1 rfl
  · exact (c9_validation
      { prompt := some (Json.str "hi"), conversation_history := none,
        secret := some (Json.str "sec") }).2
      { prompt := "hi", conversation_history := none, secret := "sec" } rfl

theorem buildMessages_trivial_history (body : GenerationRequest)
    (h : body.conversation_history = none ∨ body.conversation_history = some []) :
    buildMessages body = [{ role := "user", content := body.prompt }] := by
  rcases h with h | h <;> simp [buildMessages, h]

/-- C10: omitting `conversation_history` and supplying `null`/`[]` behave
identically — the whole pipeline result coincides, and when the request is
admitted and authorized the upstream call receives exactly the single turn
`{role: "user", content: prompt}`. -/
theorem c10_empty_history (cfg : Config) (now : Nat) (ip : String) (st : RateState)
    (p sec : String) (upstream : List Message → UpstreamOutcome)
    (hallow : (rateCheck cfg.rateLimit 60 now (st.gen ip)).1 = true)
    (hsecret : sec = cfg.apiSecret) :
    handleGenerate cfg now ip st
        { prompt := p, conversation_history := none, secret := sec } upstream =
      handleGenerate cfg now ip st
        { prompt := p, conversation_history := some [], secret := sec } upstream ∧
    (handleGenerate cfg now ip st
        { prompt := p, conversation_history := none, secret := sec } upstream).2.1 =
      some [{ role := "user", content := p }] := by
  subst hsecret
  have h1 : buildMessages
        { prompt := p, conversation_history := none, secret := cfg.apiSecret } =
      [{ role := "user", content := p }] :=
    buildMessages_trivial_history _ (Or.inl rfl)
  have h2 : buildMessages
        { prompt := p, conversation_history := some [], secret := cfg.apiSecret } =
      [{ role := "user", content := p }] :=
    buildMessages_trivial_history _ (Or.inr rfl)
  constructor
  · simp only [handleGenerate, generate_text, h1, h2]
  · cases hu : upstream [{ role := "user", content := p }] with
    | ok c =>
      by_cases ht : pyStrip (normalizeContent c) = "" <;>
        simp [handleGenerate, hallow, generate_text, h1, hu, ht]
    | error m => simp [handleGenerate, hallow, generate_text, h1, hu]

/-- C10 witness: a concrete admitted, authorized request with omitted
history sends the single prompt turn and agrees with the empty-list
form. -/
theorem c10_empty_history_witness :
    handleGenerate { apiSecret := "s", rateLimit := 10 } 0 "ip"
        { gen := fun _ => none, root := fun _ => none }
        { prompt := "Hello", conversation_history := none, secret := "s" }
        (fun _ => .ok (.str "ok")) =
      handleGenerate { apiSecret := "s", rateLimit := 10 } 0 "ip"
        { gen := fun _ => none, root := fun _ => none }
        { prompt := "Hello", conversation_history := some [], secret := "s" }
        (fun _ => .ok (.str "ok")) ∧
    (handleGenerate { apiSecret := "s", rateLimit := 10 } 0 "ip"
        { gen := fun _ => none, root := fun _ => none }
        { prompt := "Hello", conversation_history := none, secret := "s" }
        (fun _ => .ok (.str "ok"))).2.1 = some [{ role := "user", content := "Hello" }] :=
  c10_empty_history { apiSecret := "s", rateLimit := 10 } 0 "ip"
    { gen := fun _ => none, root := fun _ => none } "Hello" "s"
    (fun _ => .ok (.str "ok")) (by decide) rfl

/-- Characters of a list of words joined with single spaces (the char-level
view of `String.intercalate " "`). -/
def joinSpace : List (List Char) → List Char
  | [] => []
  | [w] => w
  | w :: ws => w ++ ' ' :: joinSpace ws

theorem joinSpace_cons (a : List Char) (as : List (List Char)) :
    joinSpace (a :: as) = a ++ (as.map (fun w => ' ' :: w)).flatten := by
  induction as generalizing a with
  | nil => simp [joinSpace]
  | cons b bs ih => simp [joinSpace, ih b]

theorem intercalate_go_spec (as : List String) (acc sep : String) :
    String.intercalate.go acc sep as =
      acc ++ String.mk ((as.map (fun a => sep.data ++ a.data)).flatten) := by
  induction as generalizing acc with
  | nil => simp [String.intercalate.go]
  | cons a as ih =>
    simp only [String.intercalate.go, ih, List.map_cons, List.flatten_cons]
    apply String.ext
    simp [String.data_append]

theorem data_intercalate_space (ws : List String) :
    (String.intercalate " " ws).data = joinSpace (ws.map String.data) := by
  cases ws with
  | nil => rfl
  | cons a as =>
    rw [List.map_cons, joinSpace_cons]
    show (String.intercalate.go a " " as).data = _
    rw [intercalate_go_spec]
    simp [String.data_append, List.map_map, Function.comp_def]

theorem pySplitAux_nonws (w : List Char) (hw : ∀ c ∈ w, c.isWhitespace = false) :
    ∀ (cs acc : List Char), pySplitAux (w ++ cs) acc = pySplitAux cs (w.reverse ++ acc) := by
  induction w with
  | nil => intro cs acc; simp
  | cons c w ih =>
    intro cs acc
    have hc : c.isWhitespace = false := hw c (by simp)
    have hw' : ∀ x ∈ w, x.isWhitespace = false := fun x hx => hw x (by simp [hx])
    rw [List.cons_append]
    simp only [pySplitAux, hc, Bool.false_eq_true, if_false]
    rw [ih hw' cs (c :: acc)]
    simp [List.append_assoc]

theorem pySplitAux_space (cs acc : List Char) (h : acc ≠ []) :
    pySplitAux (' ' :: cs) acc = acc.reverse :: pySplitAux cs [] := by
  have hsp : (' ' : Char).isWhitespace = true := by decide
  have hne : acc.isEmpty = false := by simpa [List.isEmpty_iff] using h
  simp [pySplitAux, hsp, hne]

theorem pySplitAux_joinSpace (ws : List (List Char))
    (hws : ∀ w ∈ ws, w ≠ [] ∧ ∀ c ∈ w, c.isWhitespace = false) :
    pySplitAux (joinSpace ws) [] = ws := by
  induction ws with
  | nil => rfl
  | cons w ws ih =>
    obtain ⟨hne, hnw⟩ := hws w (by simp)
    have hws' : ∀ v ∈ ws, v ≠ [] ∧ ∀ c ∈ v, c.isWhitespace = false := fun v hv =>
      hws v (by simp [hv])
    cases ws with
    | nil =>
      have h1 := pySplitAux_nonws w hnw [] []
      rw [List.append_nil, List.append_nil] at h1
      simp only [joinSpace]
      rw [h1]
      simp [pySplitAux, List.isEmpty_iff, hne]
    | cons v vs =>
      have h1 := pySplitAux_nonws w hnw (' ' :: joinSpace (v :: vs)) []
      rw [List.append_nil] at h1
      have h2 := pySplitAux_space (joinSpace (v :: vs)) w.reverse
        (by simpa using hne)
      calc pySplitAux (joinSpace (w :: v :: vs)) []
          = pySplitAux (w ++ ' ' :: joinSpace (v :: vs)) [] := by rw [show joinSpace (w :: v :: vs) = w ++ ' ' :: joinSpace (v :: vs) from rfl]
        _ = pySplitAux (' ' :: joinSpace (v :: vs)) w.reverse := h1
        _ = w.reverse.reverse :: pySplitAux (joinSpace (v :: vs)) [] := h2
        _ = w :: (v :: vs) := by
              rw [List.reverse_reverse, ih hws']

/-- C6: the truncation variant's post-processing keeps exactly the first 10
whitespace-separated words rejoined with single spaces — for any 15 words
(non-empty, containing no whitespace), truncating their space-joined
concatenation yields the first 10 words space-joined. -/
theorem c6_truncation (ws : List String) (_hlen : ws.length = 15)
    (hw : ∀ w ∈ ws, w ≠ "" ∧ ∀ c ∈ w.data, c.isWhitespace = false) :
    truncateWords (String.intercalate " " ws) = String.intercalate " " (ws.take 10) := by
  have hmk : ∀ s : String, String.mk s.data = s := fun s => by cases s; rfl
  have hws : ∀ w ∈ ws.map String.data, w ≠ [] ∧ ∀ c ∈ w, c.isWhitespace = false := by
    intro w hmem
    rcases List.mem_map.mp hmem with ⟨s, hs, rfl⟩
    obtain ⟨h1, h2⟩ := hw s hs
    exact ⟨fun hnil => h1 (String.ext (by rw [hnil])), h2⟩
  have hsplit : pySplitAux ((String.intercalate " " ws).data) [] = ws.map String.data := by
    rw [data_intercalate_space, pySplitAux_joinSpace _ hws]
  simp only [truncateWords, pyWords]
  rw [hsplit]
  congr 1
  simp only [← List.map_take, List.map_map]
  simp [Function.comp_def, hmk]

/-- C6 witness: a 15-word upstream response truncates to exactly its first
10 words space-joined. -/
theorem c6_truncation_witness :
    truncateWords (String.intercalate " "
      ["alpha", "beta", "gamma", "delta", "epsilon", "zeta", "eta", "theta",
       "iota", "kappa", "lambda", "mu", "nu", "xi", "omicron"]) =
    String.intercalate " "
      (["alpha", "beta", "gamma", "delta", "epsilon", "zeta", "eta", "theta",
        "iota", "kappa", "lambda", "mu", "nu", "xi", "omicron"].take 10) :=
  c6_truncation _ (by decide) (by decide)
